import Mathlib

/-!
Verification of the `simple-storage-service` repository: a shallow embedding of
`storage_config.py` and `service_account_storage.py` (class `ServiceAccountStorage`)
in Lean 4, together with theorems settling the specification claims.

The Google Cloud Storage backend is modelled as an explicit state (a map from
bucket names to bucket metadata and blobs); each SDK call the Python code makes
is recorded in an operation trace and may fail according to an explicit fault
schedule (index = number of SDK calls attempted so far in the invocation).
Python exceptions are modelled by the `Res` result type; `logger` calls are
recorded in a log list.
-/

namespace StorageService

/-! ## storage_config.py -/

/-- One lifecycle rule action, e.g. `\x7b'type': 'SetStorageClass', 'storageClass': 'NEARLINE'\x7d`. -/
structure LifecycleAction where
  type : String
  storageClass : Option String
deriving Repr, DecidableEq

/-- One lifecycle rule condition: an age in days and an optional storage-class filter. -/
structure LifecycleCondition where
  age : Int
  matchesStorageClass : Option (List String)
deriving Repr, DecidableEq

/-- One entry of `STORAGE_CONFIG['lifecycle_rules']`. -/
structure LifecycleRule where
  action : LifecycleAction
  condition : LifecycleCondition
deriving Repr, DecidableEq

/-- The shape of the `STORAGE_CONFIG` dictionary. -/
structure StorageConfig where
  location : String
  default_storage_class : String
  labels : List (String × String)
  lifecycle_rules : List LifecycleRule
deriving Repr, DecidableEq

/-- The process environment, as seen by `os.getenv`: `none` means the variable is unset. -/
def Env : Type := String → Option String

/-- `os.getenv(key, default)` with a string default. -/
def getenvD (env : Env) (key dflt : String) : String :=
  (env key).getD dflt

/-- Python `int(...)` applied to `os.getenv(key, dflt)` where `dflt` is already an
`int`: if the variable is unset the integer default is returned unchanged, otherwise
the string value is parsed (raising, i.e. `none`, when it is not a valid integer). -/
def envAge (env : Env) (key : String) (dflt : Int) : Option Int :=
  match env key with
  | none => some dflt
  | some s => s.toInt?

/-- The `STORAGE_CONFIG` dictionary of `storage_config.py`, as a function of the
environment. Evaluation of the module raises (`none`) when one of the age
variables is set to a non-integer string, mirroring Python `int()`. -/
def STORAGE_CONFIG (env : Env) : Option StorageConfig :=
  match envAge env "GCS_NEARLINE_AGE_DAYS" 30,
        envAge env "GCS_COLDLINE_AGE_DAYS" 90,
        envAge env "GCS_DELETE_AGE_DAYS" 365 with
  | some nearlineAge, some coldlineAge, some deleteAge =>
      some {
        location := getenvD env "GCS_LOCATION" "asia-south1"
        default_storage_class := getenvD env "GCS_STORAGE_CLASS" "STANDARD"
        labels := [("environment", getenvD env "GCS_ENV" "development"),
                   ("project", getenvD env "GCS_PROJECT" "dust-info")]
        lifecycle_rules := [
          { action := { type := "SetStorageClass", storageClass := some "NEARLINE" }
            condition := { age := nearlineAge, matchesStorageClass := some ["STANDARD"] } },
          { action := { type := "SetStorageClass", storageClass := some "COLDLINE" }
            condition := { age := coldlineAge, matchesStorageClass := some ["NEARLINE"] } },
          { action := { type := "Delete", storageClass := none }
            condition := { age := deleteAge, matchesStorageClass := none } } ] }
  | _, _, _ => none

/-- The environment in which none of the `GCS_*` variables are set. -/
def emptyEnv : Env := fun _ => none

/-- The value of `STORAGE_CONFIG` under `emptyEnv`, written out. -/
def defaultConfig : StorageConfig :=
  { location := "asia-south1"
    default_storage_class := "STANDARD"
    labels := [("environment", "development"), ("project", "dust-info")]
    lifecycle_rules := [
      { action := { type := "SetStorageClass", storageClass := some "NEARLINE" }
        condition := { age := 30, matchesStorageClass := some ["STANDARD"] } },
      { action := { type := "SetStorageClass", storageClass := some "COLDLINE" }
        condition := { age := 90, matchesStorageClass := some ["NEARLINE"] } },
      { action := { type := "Delete", storageClass := none }
        condition := { age := 365, matchesStorageClass := none } } ] }

/-! ## The Google Cloud Storage backend model

Buckets are association lists from bucket names to bucket metadata; the blobs of
a bucket are an association list from blob names to the uploaded content (we track
the source file path as the content). -/

/-- Lookup in an association list keyed by strings. -/
def lookupAssoc {α : Type} : List (String × α) → String → Option α
  | [], _ => none
  | (k0, v0) :: rest, k => if k0 = k then some v0 else lookupAssoc rest k

/-- Insert-or-replace in an association list keyed by strings. -/
def insertAssoc {α : Type} : List (String × α) → String → α → List (String × α)
  | [], k, v => [(k, v)]
  | (k0, v0) :: rest, k, v =>
      if k0 = k then (k, v) :: rest else (k0, v0) :: insertAssoc rest k v

/-- Remove a key from an association list keyed by strings. -/
def removeAssoc {α : Type} : List (String × α) → String → List (String × α)
  | [], _ => []
  | (k0, v0) :: rest, k =>
      if k0 = k then rest else (k0, v0) :: removeAssoc rest k

/-- Server-side state of one bucket. -/
structure BucketState where
  location : String
  storageClass : String
  labels : List (String × String)
  lifecycleRules : List LifecycleRule
  blobs : List (String × String)
deriving Repr, DecidableEq

/-- A bucket as the server creates it from `bucket.create(location=...)` alone:
the service default storage class, no labels, no lifecycle rules, no blobs. -/
def newBucket (location : String) : BucketState :=
  { location := location
    storageClass := "STANDARD"
    labels := []
    lifecycleRules := []
    blobs := [] }

/-- The whole storage backend: bucket name to bucket state. -/
structure GCS where
  buckets : List (String × BucketState)
deriving Repr, DecidableEq

/-- Find a bucket by name. -/
def GCS.find (g : GCS) (name : String) : Option BucketState :=
  lookupAssoc g.buckets name

/-- Insert or replace a bucket. -/
def GCS.insert (g : GCS) (name : String) (b : BucketState) : GCS :=
  ⟨insertAssoc g.buckets name b⟩

/-- One operation against the SDK, as recorded in the trace: the credential-file
read done by `__init__`, and the network calls the methods make. Local SDK object
constructions (`client.bucket(...)`, `bucket.blob(...)`) issue no operation. -/
inductive SdkOp where
  | readCredentialFile
  | getBucket (name : String)
  | bucketExists (name : String)
  | createBucket (name : String) (location : String)
  | patchBucket (name : String)
  | uploadBlob (bucket : String) (blob : String)
  | downloadBlob (bucket : String) (blob : String)
  | deleteBlob (bucket : String) (blob : String)
  | listBlobs (bucket : String)
  | signBlobUrl (bucket : String) (blob : String)
deriving Repr, DecidableEq

/-- Outcome of a Python expression or method: a value, or a raised exception
carrying its message. -/
inductive Res (α : Type) where
  | ok (a : α)
  | exn (msg : String)
deriving Repr, DecidableEq

/-- Whether a result is a raised exception. -/
def Res.raises {α : Type} : Res α → Bool
  | Res.ok _ => false
  | Res.exn _ => true

/-- Execution context threaded through an invocation: the backend state, the
trace of SDK operations attempted so far, and the logger output. -/
structure Exec where
  gcs : GCS
  ops : List SdkOp
  logs : List String
deriving Repr, DecidableEq

/-- A fault schedule: `faults i = true` means the `i`-th SDK call attempted in
this invocation fails with a service error (network failure, permission error,
local file error, and so on). -/
def Faults : Type := Nat → Bool

/-- The schedule on which every SDK call succeeds. -/
def noFaults : Faults := fun _ => false

/-- The schedule on which every SDK call fails. -/
def allFaults : Faults := fun _ => true

/-- Append an `info`-level log line. -/
def logInfo (e : Exec) (msg : String) : Exec :=
  { e with logs := e.logs ++ [msg] }

/-- Append an `error`-level log line. -/
def logError (e : Exec) (msg : String) : Exec :=
  { e with logs := e.logs ++ [msg] }

/-- Record one attempted SDK call in the trace. -/
def record (e : Exec) (op : SdkOp) : Exec :=
  { e with ops := e.ops ++ [op] }

/-- Whether the next SDK call of the invocation faults under the schedule. -/
def faulting (faults : Faults) (e : Exec) : Bool :=
  faults e.ops.length

/-! ## SDK primitives

Each primitive records its operation in the trace, fails when the fault schedule
says so, and otherwise acts on the backend state with the semantics of the
Google Cloud Storage service. -/

/-- `client.get_bucket(name)`: returns the bucket, raising `NotFound` when it
does not exist. -/
def sdkGetBucket (faults : Faults) (e : Exec) (name : String) : Res String × Exec :=
  let e1 := record e (SdkOp.getBucket name)
  if faulting faults e then (Res.exn "ServiceError", e1)
  else
    match e.gcs.find name with
    | some _ => (Res.ok name, e1)
    | none => (Res.exn "NotFound", e1)

/-- `bucket.exists()`: whether the bucket exists server-side. -/
def sdkBucketExists (faults : Faults) (e : Exec) (name : String) : Res Bool × Exec :=
  let e1 := record e (SdkOp.bucketExists name)
  if faulting faults e then (Res.exn "ServiceError", e1)
  else (Res.ok (e.gcs.find name).isSome, e1)

/-- `client.create_bucket(name, location=...)` and `bucket.create(location=...)`:
creates the bucket with service defaults at the given location, raising
`Conflict` when the name is taken. -/
def sdkCreateBucket (faults : Faults) (e : Exec) (name location : String) :
    Res String × Exec :=
  let e1 := record e (SdkOp.createBucket name location)
  if faulting faults e then (Res.exn "ServiceError", e1)
  else
    match e.gcs.find name with
    | some _ => (Res.exn "Conflict", e1)
    | none => (Res.ok name, { e1 with gcs := e1.gcs.insert name (newBucket location) })

/-- `bucket.patch()`: sends the locally modified properties (`upd`) to the server. -/
def sdkPatchBucket (faults : Faults) (e : Exec) (name : String)
    (upd : BucketState → BucketState) : Res Unit × Exec :=
  let e1 := record e (SdkOp.patchBucket name)
  if faulting faults e then (Res.exn "ServiceError", e1)
  else
    match e.gcs.find name with
    | some b => (Res.ok (), { e1 with gcs := e1.gcs.insert name (upd b) })
    | none => (Res.exn "NotFound", e1)

/-- `blob.upload_from_filename(path)`: stores the content of the local file under
the blob name. -/
def sdkUploadBlob (faults : Faults) (e : Exec) (bucket blob path : String) :
    Res Unit × Exec :=
  let e1 := record e (SdkOp.uploadBlob bucket blob)
  if faulting faults e then (Res.exn "ServiceError", e1)
  else
    match e.gcs.find bucket with
    | some b =>
        (Res.ok (),
         { e1 with gcs := e1.gcs.insert bucket { b with blobs := insertAssoc b.blobs blob path } })
    | none => (Res.exn "NotFound", e1)

/-- `blob.download_to_filename(dest)`: fetches the blob content, raising
`NotFound` when the bucket or blob does not exist. -/
def sdkDownloadBlob (faults : Faults) (e : Exec) (bucket blob : String) :
    Res String × Exec :=
  let e1 := record e (SdkOp.downloadBlob bucket blob)
  if faulting faults e then (Res.exn "ServiceError", e1)
  else
    match e.gcs.find bucket with
    | some b =>
        match lookupAssoc b.blobs blob with
        | some content => (Res.ok content, e1)
        | none => (Res.exn "NotFound", e1)
    | none => (Res.exn "NotFound", e1)

/-- `blob.delete()`: removes the blob, raising `NotFound` when absent. -/
def sdkDeleteBlob (faults : Faults) (e : Exec) (bucket blob : String) :
    Res Unit × Exec :=
  let e1 := record e (SdkOp.deleteBlob bucket blob)
  if faulting faults e then (Res.exn "ServiceError", e1)
  else
    match e.gcs.find bucket with
    | some b =>
        match lookupAssoc b.blobs blob with
        | some _ =>
            (Res.ok (),
             { e1 with gcs := e1.gcs.insert bucket { b with blobs := removeAssoc b.blobs blob } })
        | none => (Res.exn "NotFound", e1)
    | none => (Res.exn "NotFound", e1)

/-- `bucket.list_blobs()` (iterated): the names of all blobs in the bucket,
raising `NotFound` when the bucket does not exist. -/
def sdkListBlobs (faults : Faults) (e : Exec) (bucket : String) :
    Res (List String) × Exec :=
  let e1 := record e (SdkOp.listBlobs bucket)
  if faulting faults e then (Res.exn "ServiceError", e1)
  else
    match e.gcs.find bucket with
    | some b => (Res.ok (b.blobs.map Prod.fst), e1)
    | none => (Res.exn "NotFound", e1)

/-- The value returned by `blob.generate_signed_url(...)`: the URL determines
the bucket, the blob, the signature version, the expiration and the HTTP method. -/
structure SignedUrl where
  bucket : String
  blob : String
  version : String
  expirationSeconds : Int
  httpMethod : String
deriving Repr, DecidableEq

/-- `blob.generate_signed_url(version=..., expiration=..., method=...)`: signing
is a local computation over the credentials, failing only on a faulted call
(e.g. credentials without a private key). -/
def sdkGenerateSignedUrl (faults : Faults) (e : Exec) (bucket blob version : String)
    (expirationSeconds : Int) (httpMethod : String) : Res SignedUrl × Exec :=
  let e1 := record e (SdkOp.signBlobUrl bucket blob)
  if faulting faults e then (Res.exn "ServiceError", e1)
  else
    (Res.ok { bucket := bucket, blob := blob, version := version,
              expirationSeconds := expirationSeconds, httpMethod := httpMethod }, e1)

/-! ## service_account_storage.py: class ServiceAccountStorage -/

/-- The parsed content of the service-account JSON file `common/dastavez-sa.json`:
its `project_id` and whether `service_account.Credentials.from_service_account_info`
accepts it. -/
structure ServiceAccountInfo where
  project_id : String
  valid_key : Bool
deriving Repr, DecidableEq

/-- The constructed `storage.Client`. -/
structure Client where
  project_id : String
deriving Repr, DecidableEq

/-- Result of running `__init__`: the outcome, the operations performed (file
reads included), and the logger output. -/
structure InitResult where
  result : Res Client
  ops : List SdkOp
  logs : List String
deriving Repr, DecidableEq

/-- `ServiceAccountStorage.__init__`: reads `common/dastavez-sa.json` (`credFile`
is `none` when the file is missing or not valid JSON), builds the credentials and
the client from it, and on any failure logs and re-raises. -/
def initStorage (credFile : Option ServiceAccountInfo) : InitResult :=
  match credFile with
  | none =>
      { result := Res.exn "FileNotFound"
        ops := [SdkOp.readCredentialFile]
        logs := ["Failed to initialize storage service: FileNotFound"] }
  | some info =>
      if info.valid_key then
        { result := Res.ok { project_id := info.project_id }
          ops := [SdkOp.readCredentialFile]
          logs := [] }
      else
        { result := Res.exn "InvalidCredentials"
          ops := [SdkOp.readCredentialFile]
          logs := ["Failed to initialize storage service: InvalidCredentials"] }

/-- `get_bucket(bucket_name)`: one `client.get_bucket` call; on exception log and
re-raise. -/
def get_bucket (faults : Faults) (e : Exec) (bucket_name : String) :
    Res String × Exec :=
  match sdkGetBucket faults e bucket_name with
  | (Res.ok b, e1) => (Res.ok b, e1)
  | (Res.exn m, e1) =>
      (Res.exn m, logError e1 ("Failed to get bucket " ++ bucket_name ++ ": " ++ m))

/-- `create_bucket(bucket_name, location="US")`: one `client.create_bucket` call;
on exception log and re-raise. -/
def create_bucket (faults : Faults) (e : Exec) (bucket_name : String)
    (location : String := "US") : Res String × Exec :=
  match sdkCreateBucket faults e bucket_name location with
  | (Res.ok b, e1) => (Res.ok b, logInfo e1 ("Created bucket " ++ bucket_name))
  | (Res.exn m, e1) =>
      (Res.exn m, logError e1 ("Failed to create bucket " ++ bucket_name ++ ": " ++ m))

/-- `get_or_create_bucket(bucket_name)`: checks `bucket.exists()`; when the
bucket exists, returns it; otherwise creates it at `config['location']`, patches
storage class and labels, then patches lifecycle rules. Any exception is logged
and re-raised. -/
def get_or_create_bucket (cfg : StorageConfig) (faults : Faults) (e : Exec)
    (bucket_name : String) : Res String × Exec :=
  match sdkBucketExists faults e bucket_name with
  | (Res.exn m, e1) =>
      (Res.exn m, logError e1 ("Error with bucket " ++ bucket_name ++ ": " ++ m))
  | (Res.ok true, e1) =>
      (Res.ok bucket_name, logInfo e1 ("Using existing bucket: " ++ bucket_name))
  | (Res.ok false, e1) =>
      match sdkCreateBucket faults e1 bucket_name cfg.location with
      | (Res.exn m, e2) =>
          (Res.exn m, logError e2 ("Error with bucket " ++ bucket_name ++ ": " ++ m))
      | (Res.ok _, e2) =>
          match sdkPatchBucket faults e2 bucket_name
              (fun b => { b with storageClass := cfg.default_storage_class,
                                 labels := cfg.labels }) with
          | (Res.exn m, e3) =>
              (Res.exn m, logError e3 ("Error with bucket " ++ bucket_name ++ ": " ++ m))
          | (Res.ok _, e3) =>
              match sdkPatchBucket faults e3 bucket_name
                  (fun b => { b with lifecycleRules := cfg.lifecycle_rules }) with
              | (Res.exn m, e4) =>
                  (Res.exn m, logError e4 ("Error with bucket " ++ bucket_name ++ ": " ++ m))
              | (Res.ok _, e4) =>
                  (Res.ok bucket_name,
                   logInfo e4 ("Created new bucket: " ++ bucket_name ++ " in "
                     ++ cfg.location ++ " with storage class " ++ cfg.default_storage_class))

/-- Helper for `pySplit`: walk the characters, cutting at each separator. -/
def splitCharAux : List Char → Char → List Char → List String
  | [], _, acc => [String.mk acc.reverse]
  | c :: rest, sep, acc =>
      if c = sep then String.mk acc.reverse :: splitCharAux rest sep []
      else splitCharAux rest sep (c :: acc)

/-- Python `s.split(sep)` for a one-character separator: e.g. splitting `"a//b"`
at `/` gives `["a", "", "b"]`, and splitting `""` gives `[""]`. -/
def pySplit (s : String) (sep : Char) : List String :=
  splitCharAux s.data sep []

/-- `file_path.split('/')[-1]`: the final `/`-separated segment of a path
(`pySplit` never returns an empty list, so the `getD` default is never used). -/
def lastSegment (file_path : String) : String :=
  ((pySplit file_path '/').getLast?).getD ""

/-- `upload_file(bucket_name, file_path)`: get-or-create the bucket, then upload
the local file under its final path segment as blob name; returns the blob name,
or `None` after logging on any exception. -/
def upload_file (cfg : StorageConfig) (faults : Faults) (e : Exec)
    (bucket_name file_path : String) : Res (Option String) × Exec :=
  match get_or_create_bucket cfg faults e bucket_name with
  | (Res.exn m, e1) =>
      (Res.ok none, logError e1 ("Failed to upload file " ++ file_path ++ ": " ++ m))
  | (Res.ok _, e1) =>
      match sdkUploadBlob faults e1 bucket_name (lastSegment file_path) file_path with
      | (Res.exn m, e2) =>
          (Res.ok none, logError e2 ("Failed to upload file " ++ file_path ++ ": " ++ m))
      | (Res.ok _, e2) =>
          (Res.ok (some (lastSegment file_path)),
           logInfo e2 ("Successfully uploaded " ++ file_path ++ " to " ++ bucket_name))

/-- `download_file(bucket_name, source_blob_name, destination_file_path)`:
`self.get_bucket` then `blob.download_to_filename`; on exception log and
re-raise. -/
def download_file (faults : Faults) (e : Exec)
    (bucket_name source_blob_name destination_file_path : String) :
    Res Unit × Exec :=
  match get_bucket faults e bucket_name with
  | (Res.exn m, e1) =>
      (Res.exn m,
       logError e1 ("Failed to download file " ++ source_blob_name ++ ": " ++ m))
  | (Res.ok _, e1) =>
      match sdkDownloadBlob faults e1 bucket_name source_blob_name with
      | (Res.exn m, e2) =>
          (Res.exn m,
           logError e2 ("Failed to download file " ++ source_blob_name ++ ": " ++ m))
      | (Res.ok _, e2) =>
          (Res.ok (),
           logInfo e2 ("Downloaded " ++ source_blob_name ++ " to " ++ destination_file_path))

/-- `delete_file(bucket_name, blob_name)`: `self.get_bucket` then `blob.delete()`;
on exception log and re-raise. -/
def delete_file (faults : Faults) (e : Exec) (bucket_name blob_name : String) :
    Res Unit × Exec :=
  match get_bucket faults e bucket_name with
  | (Res.exn m, e1) =>
      (Res.exn m, logError e1 ("Failed to delete file " ++ blob_name ++ ": " ++ m))
  | (Res.ok _, e1) =>
      match sdkDeleteBlob faults e1 bucket_name blob_name with
      | (Res.exn m, e2) =>
          (Res.exn m, logError e2 ("Failed to delete file " ++ blob_name ++ ": " ++ m))
      | (Res.ok _, e2) =>
          (Res.ok (),
           logInfo e2 ("Deleted file " ++ blob_name ++ " from bucket " ++ bucket_name))

/-- `list_files(bucket_name)`: one `bucket.list_blobs()` call mapped to blob
names; on exception log and return `[]`. -/
def list_files (faults : Faults) (e : Exec) (bucket_name : String) :
    Res (List String) × Exec :=
  match sdkListBlobs faults e bucket_name with
  | (Res.ok names, e1) => (Res.ok names, e1)
  | (Res.exn m, e1) => (Res.ok [], logError e1 ("Failed to list files: " ++ m))

/-- `get_signed_url(bucket_name, blob_name)`: one `generate_signed_url` call with
`version="v4"`, `expiration=timedelta(minutes=15)`, `method="GET"`; on exception
log and return `None`. -/
def get_signed_url (faults : Faults) (e : Exec) (bucket_name blob_name : String) :
    Res (Option SignedUrl) × Exec :=
  match sdkGenerateSignedUrl faults e bucket_name blob_name "v4" (15 * 60) "GET" with
  | (Res.ok url, e1) => (Res.ok (some url), e1)
  | (Res.exn m, e1) =>
      (Res.ok none, logError e1 ("Failed to generate signed URL: " ++ m))

/-! ## Helper lemmas -/

/-- Looking up a key just inserted yields the inserted value. -/
theorem lookupAssoc_insertAssoc_self {α : Type} (l : List (String × α)) (k : String) (v : α) :
    lookupAssoc (insertAssoc l k v) k = some v := by
  induction l with
  | nil => simp [insertAssoc, lookupAssoc]
  | cons hd tl ih =>
      obtain ⟨k0, v0⟩ := hd
      by_cases h : k0 = k
      · simp [insertAssoc, lookupAssoc, h]
      · simp [insertAssoc, lookupAssoc, h, ih]

/-- Inserting twice at the same key keeps only the second value. -/
theorem insertAssoc_insertAssoc_self {α : Type} (l : List (String × α)) (k : String) (v w : α) :
    insertAssoc (insertAssoc l k v) k w = insertAssoc l k w := by
  induction l with
  | nil => simp [insertAssoc]
  | cons hd tl ih =>
      obtain ⟨k0, v0⟩ := hd
      by_cases h : k0 = k
      · simp [insertAssoc, h]
      · simp [insertAssoc, h, ih]

/-- `GCS` version of `lookupAssoc_insertAssoc_self`. -/
theorem GCS.find_insert_self (g : GCS) (k : String) (b : BucketState) :
    (g.insert k b).find k = some b := by
  simp [GCS.find, GCS.insert, lookupAssoc_insertAssoc_self]

/-- The default `STORAGE_CONFIG`, evaluated. -/
theorem STORAGE_CONFIG_emptyEnv : STORAGE_CONFIG emptyEnv = some defaultConfig := by
  rfl

/-- The bucket state produced by the create path of `get_or_create_bucket`. -/
def configuredBucket (cfg : StorageConfig) : BucketState :=
  { location := cfg.location
    storageClass := cfg.default_storage_class
    labels := cfg.labels
    lifecycleRules := cfg.lifecycle_rules
    blobs := [] }

/-- Trace shape of `sdkGetBucket`. -/
theorem sdkGetBucket_ops (faults : Faults) (e : Exec) (n : String) :
    (sdkGetBucket faults e n).2.ops = e.ops ++ [SdkOp.getBucket n] := by
  unfold sdkGetBucket
  repeat' split
  all_goals rfl

/-- Trace shape of `sdkBucketExists`. -/
theorem sdkBucketExists_ops (faults : Faults) (e : Exec) (n : String) :
    (sdkBucketExists faults e n).2.ops = e.ops ++ [SdkOp.bucketExists n] := by
  unfold sdkBucketExists
  repeat' split
  all_goals rfl

/-- Trace shape of `sdkCreateBucket`. -/
theorem sdkCreateBucket_ops (faults : Faults) (e : Exec) (n loc : String) :
    (sdkCreateBucket faults e n loc).2.ops = e.ops ++ [SdkOp.createBucket n loc] := by
  unfold sdkCreateBucket
  repeat' split
  all_goals rfl

/-- Trace shape of `sdkPatchBucket`. -/
theorem sdkPatchBucket_ops (faults : Faults) (e : Exec) (n : String)
    (upd : BucketState → BucketState) :
    (sdkPatchBucket faults e n upd).2.ops = e.ops ++ [SdkOp.patchBucket n] := by
  unfold sdkPatchBucket
  repeat' split
  all_goals rfl

/-- Trace shape of `sdkUploadBlob`. -/
theorem sdkUploadBlob_ops (faults : Faults) (e : Exec) (bn bl p : String) :
    (sdkUploadBlob faults e bn bl p).2.ops = e.ops ++ [SdkOp.uploadBlob bn bl] := by
  unfold sdkUploadBlob
  repeat' split
  all_goals rfl

/-- Trace shape of `sdkDownloadBlob`. -/
theorem sdkDownloadBlob_ops (faults : Faults) (e : Exec) (bn bl : String) :
    (sdkDownloadBlob faults e bn bl).2.ops = e.ops ++ [SdkOp.downloadBlob bn bl] := by
  unfold sdkDownloadBlob
  repeat' split
  all_goals rfl

/-- Trace shape of `sdkDeleteBlob`. -/
theorem sdkDeleteBlob_ops (faults : Faults) (e : Exec) (bn bl : String) :
    (sdkDeleteBlob faults e bn bl).2.ops = e.ops ++ [SdkOp.deleteBlob bn bl] := by
  unfold sdkDeleteBlob
  repeat' split
  all_goals rfl

/-- Trace shape of `sdkListBlobs`. -/
theorem sdkListBlobs_ops (faults : Faults) (e : Exec) (n : String) :
    (sdkListBlobs faults e n).2.ops = e.ops ++ [SdkOp.listBlobs n] := by
  unfold sdkListBlobs
  repeat' split
  all_goals rfl

/-- Trace shape of `sdkGenerateSignedUrl`. -/
theorem sdkGenerateSignedUrl_ops (faults : Faults) (e : Exec) (bn bl v : String)
    (x : Int) (m : String) :
    (sdkGenerateSignedUrl faults e bn bl v x m).2.ops = e.ops ++ [SdkOp.signBlobUrl bn bl] := by
  unfold sdkGenerateSignedUrl
  repeat' split
  all_goals rfl

/-- `get_bucket` attempts exactly one SDK call. -/
theorem get_bucket_ops (faults : Faults) (e : Exec) (n : String) :
    (get_bucket faults e n).2.ops = e.ops ++ [SdkOp.getBucket n] := by
  have h := sdkGetBucket_ops faults e n
  unfold get_bucket
  cases hs : sdkGetBucket faults e n with
  | mk r e1 =>
      rw [hs] at h
      cases r <;> simpa [logError] using h

/-- `create_bucket` attempts exactly one SDK call. -/
theorem create_bucket_ops (faults : Faults) (e : Exec) (n loc : String) :
    (create_bucket faults e n loc).2.ops = e.ops ++ [SdkOp.createBucket n loc] := by
  have h := sdkCreateBucket_ops faults e n loc
  unfold create_bucket
  cases hs : sdkCreateBucket faults e n loc with
  | mk r e1 =>
      rw [hs] at h
      cases r <;> simpa [logError, logInfo] using h

/-- `list_files` attempts exactly one SDK call. -/
theorem list_files_ops (faults : Faults) (e : Exec) (n : String) :
    (list_files faults e n).2.ops = e.ops ++ [SdkOp.listBlobs n] := by
  have h := sdkListBlobs_ops faults e n
  unfold list_files
  cases hs : sdkListBlobs faults e n with
  | mk r e1 =>
      rw [hs] at h
      cases r <;> simpa [logError] using h

/-- `get_signed_url` attempts exactly one SDK call. -/
theorem get_signed_url_ops (faults : Faults) (e : Exec) (bn bl : String) :
    (get_signed_url faults e bn bl).2.ops = e.ops ++ [SdkOp.signBlobUrl bn bl] := by
  have h := sdkGenerateSignedUrl_ops faults e bn bl "v4" (15 * 60) "GET"
  unfold get_signed_url
  cases hs : sdkGenerateSignedUrl faults e bn bl "v4" (15 * 60) "GET" with
  | mk r e1 =>
      rw [hs] at h
      cases r <;> simpa [logError] using h

/-- The four possible trace shapes of `get_or_create_bucket`: the existence
check alone, or the check followed by a prefix of create, patch, patch. -/
theorem get_or_create_bucket_ops (cfg : StorageConfig) (faults : Faults) (e : Exec)
    (n : String) :
    (get_or_create_bucket cfg faults e n).2.ops = e.ops ++ [SdkOp.bucketExists n] ∨
    (get_or_create_bucket cfg faults e n).2.ops =
      e.ops ++ [SdkOp.bucketExists n, SdkOp.createBucket n cfg.location] ∨
    (get_or_create_bucket cfg faults e n).2.ops =
      e.ops ++ [SdkOp.bucketExists n, SdkOp.createBucket n cfg.location,
                SdkOp.patchBucket n] ∨
    (get_or_create_bucket cfg faults e n).2.ops =
      e.ops ++ [SdkOp.bucketExists n, SdkOp.createBucket n cfg.location,
                SdkOp.patchBucket n, SdkOp.patchBucket n] := by
  unfold get_or_create_bucket
  split
  next m e1 heq1 =>
    have h1 := sdkBucketExists_ops faults e n
    rw [heq1] at h1
    left
    simpa [logError] using h1
  next e1 heq1 =>
    have h1 := sdkBucketExists_ops faults e n
    rw [heq1] at h1
    left
    simpa [logInfo] using h1
  next e1 heq1 =>
    have h1 := sdkBucketExists_ops faults e n
    rw [heq1] at h1
    simp only at h1
    split
    next m e2 heq2 =>
      have h2 := sdkCreateBucket_ops faults e1 n cfg.location
      rw [heq2] at h2
      simp only at h2
      rw [h1] at h2
      right; left
      simpa [logError, List.append_assoc] using h2
    next b2 e2 heq2 =>
      have h2 := sdkCreateBucket_ops faults e1 n cfg.location
      rw [heq2] at h2
      simp only at h2
      rw [h1] at h2
      split
      next m e3 heq3 =>
        have h3 := sdkPatchBucket_ops faults e2 n
          (fun b => { b with storageClass := cfg.default_storage_class,
                             labels := cfg.labels })
        rw [heq3] at h3
        simp only at h3
        rw [h2] at h3
        right; right; left
        simpa [logError, List.append_assoc] using h3
      next b3 e3 heq3 =>
        have h3 := sdkPatchBucket_ops faults e2 n
          (fun b => { b with storageClass := cfg.default_storage_class,
                             labels := cfg.labels })
        rw [heq3] at h3
        simp only at h3
        rw [h2] at h3
        split
        next m e4 heq4 =>
          have h4 := sdkPatchBucket_ops faults e3 n
            (fun b => { b with lifecycleRules := cfg.lifecycle_rules })
          rw [heq4] at h4
          simp only at h4
          rw [h3] at h4
          right; right; right
          simpa [logError, List.append_assoc] using h4
        next b4 e4 heq4 =>
          have h4 := sdkPatchBucket_ops faults e3 n
            (fun b => { b with lifecycleRules := cfg.lifecycle_rules })
          rw [heq4] at h4
          simp only at h4
          rw [h3] at h4
          right; right; right
          simpa [logInfo, List.append_assoc] using h4

/-- `upload_file` attempts the calls of `get_or_create_bucket`, possibly followed
by one upload call. -/
theorem upload_file_ops (cfg : StorageConfig) (faults : Faults) (e : Exec)
    (n p : String) :
    (upload_file cfg faults e n p).2.ops = (get_or_create_bucket cfg faults e n).2.ops ∨
    (upload_file cfg faults e n p).2.ops =
      (get_or_create_bucket cfg faults e n).2.ops ++ [SdkOp.uploadBlob n (lastSegment p)] := by
  unfold upload_file
  split
  next m e1 heq1 =>
    left
    rw [heq1]
    simp [logError]
  next b1 e1 heq1 =>
    split
    next m e2 heq2 =>
      have h2 := sdkUploadBlob_ops faults e1 n (lastSegment p) p
      rw [heq2] at h2
      simp only at h2
      right
      rw [heq1]
      simpa [logError] using h2
    next b2 e2 heq2 =>
      have h2 := sdkUploadBlob_ops faults e1 n (lastSegment p) p
      rw [heq2] at h2
      simp only at h2
      right
      rw [heq1]
      simpa [logInfo] using h2

/-- `download_file` attempts the `get_bucket` call, possibly followed by one
download call. -/
theorem download_file_ops (faults : Faults) (e : Exec) (bn sb dp : String) :
    (download_file faults e bn sb dp).2.ops = e.ops ++ [SdkOp.getBucket bn] ∨
    (download_file faults e bn sb dp).2.ops =
      e.ops ++ [SdkOp.getBucket bn, SdkOp.downloadBlob bn sb] := by
  unfold download_file
  split
  next m e1 heq1 =>
    have h1 := get_bucket_ops faults e bn
    rw [heq1] at h1
    left
    simpa [logError] using h1
  next b1 e1 heq1 =>
    have h1 := get_bucket_ops faults e bn
    rw [heq1] at h1
    simp only at h1
    split
    next m e2 heq2 =>
      have h2 := sdkDownloadBlob_ops faults e1 bn sb
      rw [heq2] at h2
      simp only at h2
      rw [h1] at h2
      right
      simpa [logError, List.append_assoc] using h2
    next b2 e2 heq2 =>
      have h2 := sdkDownloadBlob_ops faults e1 bn sb
      rw [heq2] at h2
      simp only at h2
      rw [h1] at h2
      right
      simpa [logInfo, List.append_assoc] using h2

/-- `delete_file` attempts the `get_bucket` call, possibly followed by one
delete call. -/
theorem delete_file_ops (faults : Faults) (e : Exec) (bn bl : String) :
    (delete_file faults e bn bl).2.ops = e.ops ++ [SdkOp.getBucket bn] ∨
    (delete_file faults e bn bl).2.ops =
      e.ops ++ [SdkOp.getBucket bn, SdkOp.deleteBlob bn bl] := by
  unfold delete_file
  split
  next m e1 heq1 =>
    have h1 := get_bucket_ops faults e bn
    rw [heq1] at h1
    left
    simpa [logError] using h1
  next b1 e1 heq1 =>
    have h1 := get_bucket_ops faults e bn
    rw [heq1] at h1
    simp only at h1
    split
    next m e2 heq2 =>
      have h2 := sdkDeleteBlob_ops faults e1 bn bl
      rw [heq2] at h2
      simp only at h2
      rw [h1] at h2
      right
      simpa [logError, List.append_assoc] using h2
    next b2 e2 heq2 =>
      have h2 := sdkDeleteBlob_ops faults e1 bn bl
      rw [heq2] at h2
      simp only at h2
      rw [h1] at h2
      right
      simpa [logInfo, List.append_assoc] using h2

/-- Under `noFaults`, when the bucket exists, `get_or_create_bucket` returns it
after the existence check alone, leaving the backend unchanged. -/
theorem goc_existing (cfg : StorageConfig) (e : Exec) (n : String)
    (h : (e.gcs.find n).isSome = true) :
    get_or_create_bucket cfg noFaults e n =
      (Res.ok n,
       { gcs := e.gcs
         ops := e.ops ++ [SdkOp.bucketExists n]
         logs := e.logs ++ ["Using existing bucket: " ++ n] }) := by
  unfold get_or_create_bucket sdkBucketExists
  simp [faulting, noFaults, record, h, logInfo]

/-- Under `noFaults`, when the bucket does not exist, `get_or_create_bucket`
creates and fully configures it. -/
theorem goc_creating (cfg : StorageConfig) (e : Exec) (n : String)
    (h : e.gcs.find n = none) :
    get_or_create_bucket cfg noFaults e n =
      (Res.ok n,
       { gcs := e.gcs.insert n (configuredBucket cfg)
         ops := e.ops ++ [SdkOp.bucketExists n, SdkOp.createBucket n cfg.location,
                          SdkOp.patchBucket n, SdkOp.patchBucket n]
         logs := e.logs ++ ["Created new bucket: " ++ n ++ " in " ++ cfg.location
                   ++ " with storage class " ++ cfg.default_storage_class] }) := by
  have h0 : lookupAssoc e.gcs.buckets n = none := h
  unfold get_or_create_bucket sdkBucketExists sdkCreateBucket sdkPatchBucket
  simp [faulting, noFaults, record, h0, logInfo, GCS.find, GCS.insert,
        lookupAssoc_insertAssoc_self, insertAssoc_insertAssoc_self,
        configuredBucket, newBucket]

/-- Under `noFaults`, when the bucket does not exist, `create_bucket` creates it
with service defaults at the given location. -/
theorem create_bucket_creating (e : Exec) (n loc : String) (h : e.gcs.find n = none) :
    create_bucket noFaults e n loc =
      (Res.ok n,
       { gcs := e.gcs.insert n (newBucket loc)
         ops := e.ops ++ [SdkOp.createBucket n loc]
         logs := e.logs ++ ["Created bucket " ++ n] }) := by
  have h0 : lookupAssoc e.gcs.buckets n = none := h
  unfold create_bucket sdkCreateBucket
  simp [faulting, noFaults, record, h0, logInfo, GCS.find, GCS.insert]

/-- After a fault-free `get_or_create_bucket`, the bucket is present. -/
theorem goc_bucket_after (cfg : StorageConfig) (g : GCS) (n : String) :
    ((get_or_create_bucket cfg noFaults ⟨g, [], []⟩ n).2.gcs.find n).isSome = true := by
  cases hg : g.find n with
  | none =>
      rw [goc_creating cfg ⟨g, [], []⟩ n hg]
      simp [GCS.find_insert_self]
  | some b =>
      rw [goc_existing cfg ⟨g, [], []⟩ n (by simp [GCS.find] at hg ⊢; simp [hg])]
      simp [hg]

/-- The schedule under which exactly the third SDK call of the invocation
(index 2) fails. -/
def faultThirdCall : Faults := fun i => i == 2

/-- When the bucket does not exist and the first `bucket.patch()` call fails,
`get_or_create_bucket` raises after having created the bucket with only the
service defaults. -/
theorem goc_patch_fault (cfg : StorageConfig) (g : GCS) (n : String)
    (h : g.find n = none) :
    get_or_create_bucket cfg faultThirdCall ⟨g, [], []⟩ n =
      (Res.exn "ServiceError",
       { gcs := g.insert n (newBucket cfg.location)
         ops := [SdkOp.bucketExists n, SdkOp.createBucket n cfg.location,
                 SdkOp.patchBucket n]
         logs := ["Error with bucket " ++ n ++ ": " ++ "ServiceError"] }) := by
  have h0 : lookupAssoc g.buckets n = none := h
  unfold get_or_create_bucket sdkBucketExists sdkCreateBucket sdkPatchBucket
  simp [faulting, faultThirdCall, record, h0, logError, GCS.find, GCS.insert]

/-- A successful `sdkUploadBlob` stores the file content under the blob name. -/
theorem sdkUploadBlob_ok (faults : Faults) (e : Exec) (bn bl p : String)
    (u : Unit) (e2 : Exec) (h : sdkUploadBlob faults e bn bl p = (Res.ok u, e2)) :
    ∃ b, e2.gcs.find bn = some b ∧ lookupAssoc b.blobs bl = some p := by
  unfold sdkUploadBlob at h
  split at h
  · simp at h
  · split at h
    next b hb =>
      rw [Prod.mk.injEq] at h
      obtain ⟨-, h2⟩ := h
      subst h2
      exact ⟨_, GCS.find_insert_self _ _ _, lookupAssoc_insertAssoc_self _ _ _⟩
    next hb => simp at h

/-! ## Claims -/

/-- C3: `get_or_create_bucket` is idempotent: when the bucket already exists the
operation returns it after the existence check alone, performing no create or
patch call and leaving the backend unchanged; and running the operation twice
leaves the same backend state as running it once, with the second run
succeeding. -/
theorem claim_C3 (cfg : StorageConfig) (g : GCS) (n : String) :
    ((g.find n).isSome = true →
       get_or_create_bucket cfg noFaults ⟨g, [], []⟩ n =
         (Res.ok n,
          { gcs := g, ops := [SdkOp.bucketExists n],
            logs := ["Using existing bucket: " ++ n] })) ∧
    (get_or_create_bucket cfg noFaults
        ⟨(get_or_create_bucket cfg noFaults ⟨g, [], []⟩ n).2.gcs, [], []⟩ n).1 =
      Res.ok n ∧
    (get_or_create_bucket cfg noFaults
        ⟨(get_or_create_bucket cfg noFaults ⟨g, [], []⟩ n).2.gcs, [], []⟩ n).2.gcs =
      (get_or_create_bucket cfg noFaults ⟨g, [], []⟩ n).2.gcs := by
  refine ⟨fun h => ?_, ?_, ?_⟩
  · simpa using goc_existing cfg ⟨g, [], []⟩ n h
  · rw [goc_existing cfg
      ⟨(get_or_create_bucket cfg noFaults ⟨g, [], []⟩ n).2.gcs, [], []⟩ n
      (goc_bucket_after cfg g n)]
  · rw [goc_existing cfg
      ⟨(get_or_create_bucket cfg noFaults ⟨g, [], []⟩ n).2.gcs, [], []⟩ n
      (goc_bucket_after cfg g n)]

/-- Witness for C3 at a backend already holding the bucket. -/
theorem claim_C3_witness :
    ((GCS.find ⟨[("docs", newBucket "US")]⟩ "docs").isSome = true) ∧
    get_or_create_bucket defaultConfig noFaults
        ⟨⟨[("docs", newBucket "US")]⟩, [], []⟩ "docs" =
      (Res.ok "docs",
       { gcs := ⟨[("docs", newBucket "US")]⟩,
         ops := [SdkOp.bucketExists "docs"],
         logs := ["Using existing bucket: " ++ "docs"] }) :=
  ⟨by decide,
   (claim_C3 defaultConfig ⟨[("docs", newBucket "US")]⟩ "docs").1 (by decide)⟩

/-- C5: the lifecycle configuration is exactly three rules: STANDARD to NEARLINE
at `GCS_NEARLINE_AGE_DAYS` (default 30), NEARLINE to COLDLINE at
`GCS_COLDLINE_AGE_DAYS` (default 90), and Delete at `GCS_DELETE_AGE_DAYS`
(default 365). -/
theorem claim_C5 :
    ((STORAGE_CONFIG emptyEnv).map StorageConfig.lifecycle_rules = some
       [{ action := { type := "SetStorageClass", storageClass := some "NEARLINE" }
          condition := { age := 30, matchesStorageClass := some ["STANDARD"] } },
        { action := { type := "SetStorageClass", storageClass := some "COLDLINE" }
          condition := { age := 90, matchesStorageClass := some ["NEARLINE"] } },
        { action := { type := "Delete", storageClass := none }
          condition := { age := 365, matchesStorageClass := none } }]) ∧
    (∀ (env : Env) (cfg : StorageConfig), STORAGE_CONFIG env = some cfg →
       ∃ a1 a2 a3 : Int,
         envAge env "GCS_NEARLINE_AGE_DAYS" 30 = some a1 ∧
         envAge env "GCS_COLDLINE_AGE_DAYS" 90 = some a2 ∧
         envAge env "GCS_DELETE_AGE_DAYS" 365 = some a3 ∧
         cfg.lifecycle_rules =
           [{ action := { type := "SetStorageClass", storageClass := some "NEARLINE" }
              condition := { age := a1, matchesStorageClass := some ["STANDARD"] } },
            { action := { type := "SetStorageClass", storageClass := some "COLDLINE" }
              condition := { age := a2, matchesStorageClass := some ["NEARLINE"] } },
            { action := { type := "Delete", storageClass := none }
              condition := { age := a3, matchesStorageClass := none } }]) := by
  constructor
  · rfl
  · intro env cfg h
    unfold STORAGE_CONFIG at h
    split at h
    next a1 a2 a3 heq1 heq2 heq3 =>
      refine ⟨a1, a2, a3, heq1, heq2, heq3, ?_⟩
      cases h
      rfl
    next => exact absurd h (by simp)

/-- Witness for C5 at the empty environment. -/
theorem claim_C5_witness :
    ∃ a1 a2 a3 : Int,
      envAge emptyEnv "GCS_NEARLINE_AGE_DAYS" 30 = some a1 ∧
      envAge emptyEnv "GCS_COLDLINE_AGE_DAYS" 90 = some a2 ∧
      envAge emptyEnv "GCS_DELETE_AGE_DAYS" 365 = some a3 ∧
      defaultConfig.lifecycle_rules =
        [{ action := { type := "SetStorageClass", storageClass := some "NEARLINE" }
           condition := { age := a1, matchesStorageClass := some ["STANDARD"] } },
         { action := { type := "SetStorageClass", storageClass := some "COLDLINE" }
           condition := { age := a2, matchesStorageClass := some ["NEARLINE"] } },
         { action := { type := "Delete", storageClass := none }
           condition := { age := a3, matchesStorageClass := none } }] :=
  claim_C5.2 emptyEnv defaultConfig rfl

/-- C6: `get_signed_url` never raises; a returned URL is a v4 signed URL for the
GET method on the requested blob expiring 15 minutes (900 seconds) after
generation; when the signing call fails the method returns `None`. -/
theorem claim_C6 (faults : Faults) (e : Exec) (bn bl : String) :
    ((get_signed_url faults e bn bl).1.raises = false) ∧
    (∀ u, (get_signed_url faults e bn bl).1 = Res.ok (some u) →
       u.version = "v4" ∧ u.httpMethod = "GET" ∧ u.expirationSeconds = 15 * 60 ∧
       u.bucket = bn ∧ u.blob = bl) ∧
    (faulting faults e = true → (get_signed_url faults e bn bl).1 = Res.ok none) ∧
    (faulting faults e = false →
       (get_signed_url faults e bn bl).1 =
         Res.ok (some { bucket := bn, blob := bl, version := "v4",
                        expirationSeconds := 15 * 60, httpMethod := "GET" })) := by
  unfold get_signed_url sdkGenerateSignedUrl
  cases hf : faulting faults e <;> simp [hf, Res.raises]

/-- Witness for C6: a faulted call yields `None`. -/
theorem claim_C6_witness :
    (faulting allFaults ⟨⟨[]⟩, [], []⟩ = true) ∧
    (get_signed_url allFaults ⟨⟨[]⟩, [], []⟩ "docs" "x.txt").1 = Res.ok none :=
  ⟨by decide, (claim_C6 allFaults ⟨⟨[]⟩, [], []⟩ "docs" "x.txt").2.2.1 (by decide)⟩

/-- C7: when the bucket does not exist, `get_or_create_bucket` creates it in
`STORAGE_CONFIG['location']` and patches it so that storage class, labels and
lifecycle rules equal the configured values. -/
theorem claim_C7 (cfg : StorageConfig) (g : GCS) (n : String)
    (h : g.find n = none) :
    (get_or_create_bucket cfg noFaults ⟨g, [], []⟩ n).1 = Res.ok n ∧
    ∃ b : BucketState,
      (get_or_create_bucket cfg noFaults ⟨g, [], []⟩ n).2.gcs.find n = some b ∧
      b.location = cfg.location ∧
      b.storageClass = cfg.default_storage_class ∧
      b.labels = cfg.labels ∧
      b.lifecycleRules = cfg.lifecycle_rules := by
  rw [goc_creating cfg ⟨g, [], []⟩ n h]
  exact ⟨rfl, configuredBucket cfg, GCS.find_insert_self g n _, rfl, rfl, rfl, rfl⟩

/-- Witness for C7 at the empty backend and the default configuration. -/
theorem claim_C7_witness :
    (GCS.find ⟨[]⟩ "docs" = none) ∧
    ((get_or_create_bucket defaultConfig noFaults ⟨⟨[]⟩, [], []⟩ "docs").1 =
       Res.ok "docs" ∧
     ∃ b : BucketState,
       (get_or_create_bucket defaultConfig noFaults ⟨⟨[]⟩, [], []⟩ "docs").2.gcs.find
           "docs" = some b ∧
       b.location = defaultConfig.location ∧
       b.storageClass = defaultConfig.default_storage_class ∧
       b.labels = defaultConfig.labels ∧
       b.lifecycleRules = defaultConfig.lifecycle_rules) :=
  ⟨rfl, claim_C7 defaultConfig ⟨[]⟩ "docs" rfl⟩

/-- C9: `create_bucket` without an explicit location creates the bucket in
`"US"`, while the creation branch of `get_or_create_bucket` under the default
configuration creates it in `"asia-south1"`, two different locations. -/
theorem claim_C9 (g : GCS) (n : String) (h : g.find n = none) :
    (∃ b : BucketState,
       (create_bucket noFaults ⟨g, [], []⟩ n).2.gcs.find n = some b ∧
       b.location = "US") ∧
    (∃ b : BucketState,
       (get_or_create_bucket defaultConfig noFaults ⟨g, [], []⟩ n).2.gcs.find n =
         some b ∧
       b.location = "asia-south1") ∧
    STORAGE_CONFIG emptyEnv = some defaultConfig ∧
    "US" ≠ "asia-south1" := by
  refine ⟨?_, ?_, STORAGE_CONFIG_emptyEnv, by decide⟩
  · rw [create_bucket_creating ⟨g, [], []⟩ n "US" h]
    exact ⟨newBucket "US", GCS.find_insert_self g n _, rfl⟩
  · rw [goc_creating defaultConfig ⟨g, [], []⟩ n h]
    exact ⟨configuredBucket defaultConfig, GCS.find_insert_self g n _, rfl⟩

/-- Witness for C9 at the empty backend. -/
theorem claim_C9_witness :
    (GCS.find ⟨[]⟩ "docs" = none) ∧
    ((∃ b : BucketState,
        (create_bucket noFaults ⟨⟨[]⟩, [], []⟩ "docs").2.gcs.find "docs" = some b ∧
        b.location = "US") ∧
     (∃ b : BucketState,
        (get_or_create_bucket defaultConfig noFaults ⟨⟨[]⟩, [], []⟩ "docs").2.gcs.find
            "docs" = some b ∧
        b.location = "asia-south1") ∧
     STORAGE_CONFIG emptyEnv = some defaultConfig ∧
     "US" ≠ "asia-south1") :=
  ⟨rfl, claim_C9 ⟨[]⟩ "docs" rfl⟩

/-- C10: `get_or_create_bucket` is not atomic on error: when the bucket did not
exist and the first patch call fails after the create call succeeded, the method
raises while the newly created bucket persists with only the service defaults
(no configured labels, storage class patch or lifecycle rules applied). -/
theorem claim_C10 (cfg : StorageConfig) (g : GCS) (n : String)
    (h : g.find n = none) :
    (get_or_create_bucket cfg faultThirdCall ⟨g, [], []⟩ n).1.raises = true ∧
    ∃ b : BucketState,
      (get_or_create_bucket cfg faultThirdCall ⟨g, [], []⟩ n).2.gcs.find n = some b ∧
      b.location = cfg.location ∧ b.storageClass = "STANDARD" ∧
      b.labels = [] ∧ b.lifecycleRules = [] := by
  rw [goc_patch_fault cfg g n h]
  exact ⟨rfl, newBucket cfg.location, GCS.find_insert_self g n _, rfl, rfl, rfl, rfl⟩

/-- Witness for C10 at the empty backend and the default configuration. -/
theorem claim_C10_witness :
    (GCS.find ⟨[]⟩ "docs" = none) ∧
    ((get_or_create_bucket defaultConfig faultThirdCall ⟨⟨[]⟩, [], []⟩ "docs").1.raises =
       true ∧
     ∃ b : BucketState,
       (get_or_create_bucket defaultConfig faultThirdCall
           ⟨⟨[]⟩, [], []⟩ "docs").2.gcs.find "docs" = some b ∧
       b.location = defaultConfig.location ∧ b.storageClass = "STANDARD" ∧
       b.labels = [] ∧ b.lifecycleRules = []) :=
  ⟨rfl, claim_C10 defaultConfig ⟨[]⟩ "docs" rfl⟩

/-- A backend holding one bucket `"docs"` that contains one blob `"x.txt"`. -/
def demoExec : Exec :=
  ⟨⟨[("docs", { location := "US", storageClass := "STANDARD", labels := [],
                lifecycleRules := [], blobs := [("x.txt", "x.txt")] })]⟩, [], []⟩

/-- C1 (amended): `get_bucket`, `create_bucket`, `list_files` and
`get_signed_url` attempt exactly one SDK call per invocation, but
`get_or_create_bucket` attempts four on its creation path, `upload_file` five,
and `download_file` and `delete_file` two each. -/
theorem claim_C1 :
    (∀ (faults : Faults) (g : GCS) (n : String),
        (get_bucket faults ⟨g, [], []⟩ n).2.ops.length = 1) ∧
    (∀ (faults : Faults) (g : GCS) (n loc : String),
        (create_bucket faults ⟨g, [], []⟩ n loc).2.ops.length = 1) ∧
    (∀ (faults : Faults) (g : GCS) (n : String),
        (list_files faults ⟨g, [], []⟩ n).2.ops.length = 1) ∧
    (∀ (faults : Faults) (g : GCS) (bn bl : String),
        (get_signed_url faults ⟨g, [], []⟩ bn bl).2.ops.length = 1) ∧
    (get_or_create_bucket defaultConfig noFaults ⟨⟨[]⟩, [], []⟩ "docs").2.ops.length
      = 4 ∧
    (upload_file defaultConfig noFaults ⟨⟨[]⟩, [], []⟩ "docs" "a/x.txt").2.ops.length
      = 5 ∧
    (download_file noFaults demoExec "docs" "x.txt" "local.txt").2.ops.length = 2 ∧
    (delete_file noFaults demoExec "docs" "x.txt").2.ops.length = 2 := by
  refine ⟨?_, ?_, ?_, ?_, by decide, by decide, by decide, by decide⟩
  · intro faults g n
    rw [get_bucket_ops]
    rfl
  · intro faults g n loc
    rw [create_bucket_ops]
    rfl
  · intro faults g n
    rw [list_files_ops]
    rfl
  · intro faults g bn bl
    rw [get_signed_url_ops]
    rfl

/-- Counterexample to C1 as stated: on its creation path,
`get_or_create_bucket` attempts four SDK operations, not one. -/
theorem claim_C1_counterexample :
    (get_or_create_bucket defaultConfig noFaults ⟨⟨[]⟩, [], []⟩ "docs").2.ops.length
      ≠ 1 ∧
    (get_or_create_bucket defaultConfig noFaults ⟨⟨[]⟩, [], []⟩ "docs").2.ops =
      [SdkOp.bucketExists "docs", SdkOp.createBucket "docs" "asia-south1",
       SdkOp.patchBucket "docs", SdkOp.patchBucket "docs"] := by
  exact ⟨by decide, by decide⟩

/-- C2 (amended): on an SDK failure every method logs the error, but the error
outcome is not uniform across methods: `get_bucket`, `create_bucket`,
`get_or_create_bucket`, `download_file` and `delete_file` re-raise, while
`upload_file` returns `None`, `list_files` returns `[]` and `get_signed_url`
returns `None`. -/
theorem claim_C2 :
    (∀ (g : GCS) (n : String),
        (get_bucket allFaults ⟨g, [], []⟩ n).1.raises = true ∧
        (get_bucket allFaults ⟨g, [], []⟩ n).2.logs ≠ []) ∧
    (∀ (g : GCS) (n loc : String),
        (create_bucket allFaults ⟨g, [], []⟩ n loc).1.raises = true ∧
        (create_bucket allFaults ⟨g, [], []⟩ n loc).2.logs ≠ []) ∧
    (∀ (cfg : StorageConfig) (g : GCS) (n : String),
        (get_or_create_bucket cfg allFaults ⟨g, [], []⟩ n).1.raises = true ∧
        (get_or_create_bucket cfg allFaults ⟨g, [], []⟩ n).2.logs ≠ []) ∧
    (∀ (g : GCS) (bn sb dp : String),
        (download_file allFaults ⟨g, [], []⟩ bn sb dp).1.raises = true ∧
        (download_file allFaults ⟨g, [], []⟩ bn sb dp).2.logs ≠ []) ∧
    (∀ (g : GCS) (bn bl : String),
        (delete_file allFaults ⟨g, [], []⟩ bn bl).1.raises = true ∧
        (delete_file allFaults ⟨g, [], []⟩ bn bl).2.logs ≠ []) ∧
    (∀ (cfg : StorageConfig) (g : GCS) (bn p : String),
        (upload_file cfg allFaults ⟨g, [], []⟩ bn p).1 = Res.ok none ∧
        (upload_file cfg allFaults ⟨g, [], []⟩ bn p).2.logs ≠ []) ∧
    (∀ (g : GCS) (n : String),
        (list_files allFaults ⟨g, [], []⟩ n).1 = Res.ok [] ∧
        (list_files allFaults ⟨g, [], []⟩ n).2.logs ≠ []) ∧
    (∀ (g : GCS) (bn bl : String),
        (get_signed_url allFaults ⟨g, [], []⟩ bn bl).1 = Res.ok none ∧
        (get_signed_url allFaults ⟨g, [], []⟩ bn bl).2.logs ≠ []) := by
  refine ⟨?_, ?_, ?_, ?_, ?_, ?_, ?_, ?_⟩ <;> intros <;> constructor <;>
    simp [get_bucket, create_bucket, get_or_create_bucket, download_file,
          delete_file, upload_file, list_files, get_signed_url,
          sdkGetBucket, sdkCreateBucket, sdkBucketExists, sdkListBlobs,
          sdkGenerateSignedUrl, faulting, allFaults, record, logError, logInfo,
          Res.raises]

/-- Counterexample to C2 as stated: under the same total-failure schedule,
`get_bucket` re-raises while `list_files` swallows the error and returns the
default `[]` — the error outcome is not uniform across methods. -/
theorem claim_C2_counterexample :
    (get_bucket allFaults ⟨⟨[]⟩, [], []⟩ "docs").1.raises = true ∧
    (list_files allFaults ⟨⟨[]⟩, [], []⟩ "docs").1.raises = false ∧
    (list_files allFaults ⟨⟨[]⟩, [], []⟩ "docs").1 = Res.ok [] := by
  exact ⟨by decide, by decide, by decide⟩

/-- C4: `__init__` reads the credential file exactly once, builds the client
from it and raises on any failure (missing/unparseable file or rejected key),
and no method of the class ever attempts a credential-file read. -/
theorem claim_C4 :
    (∀ cf : Option ServiceAccountInfo,
        (initStorage cf).ops = [SdkOp.readCredentialFile]) ∧
    ((initStorage none).result = Res.exn "FileNotFound") ∧
    (∀ info : ServiceAccountInfo,
        (initStorage (some info)).result =
          if info.valid_key then Res.ok { project_id := info.project_id }
          else Res.exn "InvalidCredentials") ∧
    (∀ (faults : Faults) (g : GCS) (n : String),
        SdkOp.readCredentialFile ∉ (get_bucket faults ⟨g, [], []⟩ n).2.ops) ∧
    (∀ (faults : Faults) (g : GCS) (n loc : String),
        SdkOp.readCredentialFile ∉ (create_bucket faults ⟨g, [], []⟩ n loc).2.ops) ∧
    (∀ (cfg : StorageConfig) (faults : Faults) (g : GCS) (n : String),
        SdkOp.readCredentialFile ∉
          (get_or_create_bucket cfg faults ⟨g, [], []⟩ n).2.ops) ∧
    (∀ (cfg : StorageConfig) (faults : Faults) (g : GCS) (n p : String),
        SdkOp.readCredentialFile ∉ (upload_file cfg faults ⟨g, [], []⟩ n p).2.ops) ∧
    (∀ (faults : Faults) (g : GCS) (bn sb dp : String),
        SdkOp.readCredentialFile ∉ (download_file faults ⟨g, [], []⟩ bn sb dp).2.ops) ∧
    (∀ (faults : Faults) (g : GCS) (bn bl : String),
        SdkOp.readCredentialFile ∉ (delete_file faults ⟨g, [], []⟩ bn bl).2.ops) ∧
    (∀ (faults : Faults) (g : GCS) (n : String),
        SdkOp.readCredentialFile ∉ (list_files faults ⟨g, [], []⟩ n).2.ops) ∧
    (∀ (faults : Faults) (g : GCS) (bn bl : String),
        SdkOp.readCredentialFile ∉ (get_signed_url faults ⟨g, [], []⟩ bn bl).2.ops) := by
  refine ⟨?_, rfl, ?_, ?_, ?_, ?_, ?_, ?_, ?_, ?_, ?_⟩
  · intro cf
    cases cf with
    | none => rfl
    | some info => cases hv : info.valid_key <;> simp [initStorage, hv]
  · intro info
    cases hv : info.valid_key <;> simp [initStorage, hv]
  · intro faults g n
    rw [get_bucket_ops]
    simp
  · intro faults g n loc
    rw [create_bucket_ops]
    simp
  · intro cfg faults g n
    rcases get_or_create_bucket_ops cfg faults ⟨g, [], []⟩ n with h | h | h | h <;>
      rw [h] <;> simp
  · intro cfg faults g n p
    rcases upload_file_ops cfg faults ⟨g, [], []⟩ n p with h | h <;> rw [h] <;>
      rcases get_or_create_bucket_ops cfg faults ⟨g, [], []⟩ n with h2 | h2 | h2 | h2 <;>
        rw [h2] <;> simp
  · intro faults g bn sb dp
    rcases download_file_ops faults ⟨g, [], []⟩ bn sb dp with h | h <;> rw [h] <;> simp
  · intro faults g bn bl
    rcases delete_file_ops faults ⟨g, [], []⟩ bn bl with h | h <;> rw [h] <;> simp
  · intro faults g n
    rw [list_files_ops]
    simp
  · intro faults g bn bl
    rw [get_signed_url_ops]
    simp

/-- C8: a successful `upload_file` names the blob with the final `/`-separated
segment of the path and returns that name, storing the file content under it;
consequently two distinct paths with the same final segment map to the same blob
name. -/
theorem claim_C8 (cfg : StorageConfig) (faults : Faults) (g : GCS)
    (n p s : String)
    (h : (upload_file cfg faults ⟨g, [], []⟩ n p).1 = Res.ok (some s)) :
    (s = lastSegment p ∧
     ∃ b : BucketState,
       (upload_file cfg faults ⟨g, [], []⟩ n p).2.gcs.find n = some b ∧
       lookupAssoc b.blobs (lastSegment p) = some p) ∧
    (lastSegment "a/x.txt" = lastSegment "b/x.txt" ∧ "a/x.txt" ≠ "b/x.txt") := by
  refine ⟨?_, by decide, by decide⟩
  unfold upload_file at h ⊢
  split at h
  next m e1 heq1 => simp at h
  next b1 e1 heq1 =>
    split at h
    next m e2 heq2 => simp at h
    next b2 e2 heq2 =>
      simp only [logInfo] at h ⊢
      obtain ⟨b, hb1, hb2⟩ := sdkUploadBlob_ok faults e1 n (lastSegment p) p b2 e2 heq2
      simp at h
      exact ⟨h.symm, b, hb1, hb2⟩

/-- Witness for C8: a concrete successful upload of `"a/x.txt"` is stored and
returned as `"x.txt"`. -/
theorem claim_C8_witness :
    ((upload_file defaultConfig noFaults ⟨⟨[]⟩, [], []⟩ "docs" "a/x.txt").1 =
       Res.ok (some "x.txt")) ∧
    ("x.txt" = lastSegment "a/x.txt" ∧
     ∃ b : BucketState,
       (upload_file defaultConfig noFaults ⟨⟨[]⟩, [], []⟩ "docs" "a/x.txt").2.gcs.find
           "docs" = some b ∧
       lookupAssoc b.blobs (lastSegment "a/x.txt") = some "a/x.txt") ∧
    (lastSegment "a/x.txt" = lastSegment "b/x.txt" ∧ "a/x.txt" ≠ "b/x.txt") :=
  ⟨by decide,
   claim_C8 defaultConfig noFaults ⟨[]⟩ "docs" "a/x.txt" "x.txt" (by decide)⟩

end StorageService
